import Mathlib

set_option autoImplicit false
set_option linter.unusedVariables false

/-!
Verification development for the task-management application
(Angular client + Express/MongoDB server).

The client-side session layer is embedded from
`client/src/app/core/services/auth.service.ts` (the cookie-based version)
and `core/interceptors` (the error interceptor with refresh handling);
the server side from `server/src/use-cases/auth/*`, `repositories/user.repository.ts`,
`entities/user.entity.ts`, `models/user.model.ts` (mongoose schema),
`middleware/auth.middleware.ts`, the auth controller and the auth router.

String operations of the source (`includes`, `startsWith`, `split`,
`trim`, `toLowerCase`, first-occurrence `replace`) are embedded as
executable character-list functions so that all statements evaluate.
-/

/-! ## String helpers (JS string semantics on character lists) -/

/-- JS `String.prototype.includes(sub)`: `sub` occurs as a contiguous
substring. -/
def charsIncludes (sub : List Char) : List Char → Bool
  | [] => sub.isEmpty
  | c :: rest => sub.isPrefixOf (c :: rest) || charsIncludes sub rest

/-- JS `url.includes(sub)` on strings. -/
def urlIncludes (u sub : String) : Bool := charsIncludes sub.data u.data

/-- JS `String.prototype.startsWith(p)`. -/
def strStartsWith (u p : String) : Bool := p.data.isPrefixOf u.data

/-- JS `String.prototype.split(sep)` for a single-character separator. -/
def splitOnChar (sep : Char) : List Char → List (List Char)
  | [] => [[]]
  | c :: rest =>
    let r := splitOnChar sep rest
    if c == sep then [] :: r
    else
      match r with
      | [] => [[c]]
      | h :: t => (c :: h) :: t

/-- Left inverse of `splitOnChar`: re-join the pieces with the separator. -/
def joinSep (sep : Char) : List (List Char) → List Char
  | [] => []
  | [x] => x
  | x :: y :: rest => x ++ sep :: joinSep sep (y :: rest)

/-- JS `String.prototype.replace(pat, '')` (first occurrence only). -/
def removeFirst (pat : List Char) : List Char → List Char
  | [] => []
  | c :: rest =>
    if pat.isPrefixOf (c :: rest) then (c :: rest).drop pat.length
    else c :: removeFirst pat rest

/-- JS `s.replace(pat, '')` on strings (first occurrence only). -/
def replaceFirstStr (s pat : String) : String := ⟨removeFirst pat.data s.data⟩

/-- JS `String.prototype.trim()`: strip leading and trailing whitespace. -/
def strTrim (s : String) : String :=
  ⟨((s.data.dropWhile Char.isWhitespace).reverse.dropWhile Char.isWhitespace).reverse⟩

/-- JS `String.prototype.toLowerCase()` (ASCII-faithful). -/
def strLower (s : String) : String := ⟨s.data.map Char.toLower⟩

/-! ## Token model

A session token is a signed JWT string.  `parseJwt` in
`auth.service.ts` base64url-decodes the middle segment and JSON-parses
it, returning the payload object or `null`.  The byte-level decoding is
abstracted by pairing each token string with its decoded payload
(`none` when decoding would fail); `parseJwt` projects that payload. -/

/-- Decoded JWT payload as used by the client (`exp` in epoch seconds;
`none` models an absent claim). -/
structure JwtPayload where
  exp : Option Int
  deriving Repr, DecidableEq

/-- A token string together with its decode result (see section note). -/
structure Jwt where
  raw : String
  payload : Option JwtPayload
  deriving Repr, DecidableEq

/-- `parseJwt(token)`: the decoded payload, or `null` on decode failure. -/
def parseJwt (t : Jwt) : Option JwtPayload := t.payload

/-! ## Client session state (`AuthService`) -/

/-- The client `User` model: `{id, name, email, role, token}`.
`token = none` models a JS-falsy (`undefined`/empty) token field. -/
structure ClientUser where
  id : String
  name : String
  email : String
  role : String
  token : Option Jwt
  deriving Repr, DecidableEq

/-- In-memory state of `AuthService`: the `userSubject` value, the stored
`refreshTokenTimeout` handle, the timers actually pending in the runtime
(handle, delay in ms), and a fresh-handle counter for `setTimeout`. -/
structure AuthState where
  user : Option ClientUser
  timerHandle : Option Nat
  pending : List (Nat × Int)
  nextHandle : Nat
  deriving Repr, DecidableEq

/-- Observable side effects of the client operations. -/
inductive ClientEvent where
  | httpLogout
  | navigate (path : String)
  | verifyInvoke
  deriving Repr, DecidableEq

/-- `environment.apiUrl` of the client. -/
def apiUrl : String := "http://localhost:8000/api"

/-- `stopRefreshTokenTimer()`: `clearTimeout` on the stored handle (if
any) and reset the handle to `null`. -/
def stopRefreshTokenTimer (s : AuthState) : AuthState :=
  match s.timerHandle with
  | some h => { s with timerHandle := none, pending := s.pending.filter (fun p => p.1 != h) }
  | none => s

/-- `startRefreshTokenTimer()`: clear any existing timer, decode the
current token's expiry, and either arm a single `setTimeout` for
`exp*1000 - Date.now() - 60_000` ms or, when that delay is not positive,
invoke `verifyToken()` immediately. -/
def startRefreshTokenTimer (nowMs : Int) (s : AuthState) : AuthState × List ClientEvent :=
  let s0 := stopRefreshTokenTimer s
  match s0.user with
  | none => (s0, [])
  | some u =>
    match u.token with
    | none => (s0, [])
    | some t =>
      if t.raw == "" then (s0, [])
      else
        match parseJwt t with
        | none => (s0, [])
        | some td =>
          match td.exp with
          | none => (s0, [])
          | some e =>
            if e == 0 then (s0, [])
            else
              let timeout := e * 1000 - nowMs - 60 * 1000
              if timeout > 0 then
                ({ s0 with timerHandle := some s0.nextHandle,
                           pending := s0.pending ++ [(s0.nextHandle, timeout)],
                           nextHandle := s0.nextHandle + 1 }, [])
              else
                (s0, [ClientEvent.verifyInvoke])

/-- `logout(navigateToLogin)`: stop the refresh timer, POST
`/auth/logout`, and in both the success and the error callback clear the
user state and optionally navigate to `/login`.  `serverOk` is the
outcome of the server call; the resulting state does not depend on it. -/
def logout (serverOk : Bool) (navigateToLogin : Bool) (s : AuthState) :
    AuthState × List ClientEvent :=
  let s1 := stopRefreshTokenTimer s
  ({ s1 with user := none },
   [ClientEvent.httpLogout] ++ (if navigateToLogin then [ClientEvent.navigate "/login"] else []))

/-- The single-pending-timer invariant of the scheduler: at most one
timer is armed in the runtime, and any armed timer is the one whose
handle the service stored. -/
def timerInv (s : AuthState) : Prop :=
  s.pending.length ≤ 1 ∧ ∀ p ∈ s.pending, some p.1 = s.timerHandle

/-! ## Client `verifyToken()` (the refresh operation) -/

/-- Decision taken by `verifyToken()` before/at the network boundary. -/
inductive VerifyTokenResult where
  | errNoToken
  | errExpired
  | httpRefresh (authHeader : String)
  deriving Repr, DecidableEq

/-- `verifyToken()` up to the single POST `/auth/refresh`: fail locally
when no (truthy) token is held; fail locally with `'Token expired'` when
the decoded `exp` is truthy and in the past; otherwise issue exactly one
refresh request carrying the current token as a bearer header. -/
def verifyToken (nowSec : Int) (s : AuthState) : VerifyTokenResult :=
  match s.user with
  | none => .errNoToken
  | some u =>
    match u.token with
    | none => .errNoToken
    | some t =>
      if t.raw == "" then .errNoToken
      else
        let expired :=
          match parseJwt t with
          | some td =>
            match td.exp with
            | some e => e != 0 && decide (e < nowSec)
            | none => false
          | none => false
        if expired then .errExpired
        else .httpRefresh ("Bearer " ++ t.raw)

/-- Result of a complete `verifyToken()` run, recording how many refresh
HTTP calls were issued. -/
inductive RefreshRunResult where
  | localError (msg : String) (httpCalls : Nat)
  | propagatedError (httpCalls : Nat)
  | refreshed (httpCalls : Nat)
  deriving Repr, DecidableEq

/-- A complete `verifyToken()` run as a function of the server response:
local failures issue no HTTP call; otherwise one call is made and its
outcome is propagated as-is (the `catchError` branch rethrows without
logging out and without a second attempt). -/
def verifyTokenRun (nowSec : Int) (s : AuthState) (respOk : Bool) : RefreshRunResult :=
  match verifyToken nowSec s with
  | .errNoToken => .localError "No authentication token available" 0
  | .errExpired => .localError "Token expired" 0
  | .httpRefresh _ => if respOk then .refreshed 1 else .propagatedError 1

/-! ## Client `autoLogin()` (verify-on-load) and the error interceptor -/

/-- The `data` part of the server response envelope
`{success, message, data: {user, token}}` as unwrapped by the client
(`response.data?.user`, `response.data?.token`). -/
structure AuthUserData where
  id : String
  name : String
  email : String
  role : String
  deriving Repr, DecidableEq

/-- Envelope payload: user object and raw token string, each possibly
absent. -/
structure EnvelopeData where
  user : Option AuthUserData
  token : Option String
  deriving Repr, DecidableEq

/-- `autoLogin()`: GET `/auth/verify` with credentials; on success with a
truthy `user.id` and token, set the user and start the refresh timer; on
success with incomplete data only warn; on error clear the local state
(no error is surfaced to the user).  `decode` abstracts `parseJwt` on
the raw token string; `resp` is the HTTP outcome (`.error status`). -/
def autoLogin (decode : String → Option JwtPayload) (nowMs : Int)
    (resp : Except Nat EnvelopeData) (s : AuthState) : AuthState × List ClientEvent :=
  match resp with
  | .error _ => ({ s with user := none }, [])
  | .ok d =>
    match d.user, d.token with
    | some ud, some tok =>
      if ud.id != "" && tok != "" then
        let u : ClientUser :=
          { id := ud.id, name := ud.name, email := ud.email, role := ud.role,
            token := some { raw := tok, payload := decode tok } }
        startRefreshTokenTimer nowMs { s with user := some u }
      else (s, [])
    | _, _ => (s, [])

/-- Outcome of the error interceptor's 401 branch
(`ErrorInterceptor.intercept`, refresh-capable version). -/
inductive Intercept401 where
  | terminal (msg : String)
  | rethrowOriginal
  | refreshFlow
  | logoutTerminal (msg : String)
  deriving Repr, DecidableEq

/-- The 401 case of `ErrorInterceptor.intercept`: login requests are
terminal with a fixed message; `/tasks` requests are re-thrown for
`TaskService`; other API requests with a current user enter the
refresh-and-retry flow; a 401 on the refresh endpoint itself logs out
and navigates to login; with no user the failure is terminal with an
"authentication required" message. -/
def intercept401 (s : AuthState) (url baseMsg : String) : Intercept401 :=
  let isApiUrl := strStartsWith url apiUrl
  let isRefreshRequest := urlIncludes url "/refresh"
  let isLoginRequest := urlIncludes url "/login"
  let isTasksRequest := urlIncludes url "/tasks"
  let hasUser := s.user.isSome
  if isLoginRequest then .terminal "Invalid email or password"
  else if isTasksRequest then .rethrowOriginal
  else if isApiUrl && !isRefreshRequest && hasUser then .refreshFlow
  else if isRefreshRequest then .logoutTerminal "Session expired. Please log in again."
  else if !hasUser then .terminal "Authentication required. Please log in."
  else .terminal baseMsg

/-- Number of `verifyToken()` (refresh) attempts the 401 branch makes. -/
def intercept401RefreshAttempts : Intercept401 → Nat
  | .refreshFlow => 1
  | _ => 0

/-- What `ErrorInterceptor.handleUnauthorizedError` does after the single
`verifyToken()` call. -/
structure RetryHandling where
  refreshAttempts : Nat
  retries : Nat
  retryAuthHeader : Option String
  loggedOut : Bool
  navigatedTo : Option String
  deriving Repr, DecidableEq

/-- `handleUnauthorizedError`: one `verifyToken()` call; if it emits,
retry the original request once, cloning in a bearer header from the
user current at retry time (when one with a truthy token exists); if it
errors, log out, navigate to `/login` and make no retry.  `afterRefresh`
is `some s2` (the state at retry time) on success, `none` on failure. -/
def handleUnauthorizedError (afterRefresh : Option AuthState) : RetryHandling :=
  match afterRefresh with
  | some s2 =>
    { refreshAttempts := 1, retries := 1,
      retryAuthHeader :=
        match s2.user with
        | some u =>
          match u.token with
          | some t => if t.raw == "" then none else some ("Bearer " ++ t.raw)
          | none => none
        | none => none,
      loggedOut := false, navigatedTo := none }
  | none =>
    { refreshAttempts := 1, retries := 0, retryAuthHeader := none,
      loggedOut := true, navigatedTo := some "/login" }

/-! ## Server: user store, credential use-cases, entity validation -/

/-- A persisted user record (`users` collection).  `password` holds the
bcrypt hash; the mongoose schema stores `email` trimmed and lowercased. -/
structure StoredUser where
  id : String
  name : String
  email : String
  password : String
  role : String
  deriving Repr, DecidableEq

/-- The user collection. -/
abbrev UserStore := List StoredUser

/-- `UserRepository.findByEmail`: `findOne({email: email.toLowerCase()})`. -/
def findByEmail (store : UserStore) (email : String) : Option StoredUser :=
  store.find? (fun u => u.email == strLower email)

/-- `UserModel.findById` / `UserRepository.findById`. -/
def findById (store : UserStore) (id : String) : Option StoredUser :=
  store.find? (fun u => u.id == id)

/-- `UserRepository.emailExists`:
`countDocuments({email: email.toLowerCase()}) > 0`. -/
def emailExists (store : UserStore) (email : String) : Bool :=
  store.any (fun u => u.email == strLower email)

/-- JWT claims signed by the server on login (`{id, email, role}`). -/
structure JwtClaims where
  id : String
  email : String
  role : String
  deriving Repr, DecidableEq

/-- Output of `LoginUserUseCase.execute`. -/
structure LoginUserOutput where
  userId : String
  userName : String
  userEmail : String
  userRole : String
  tokenClaims : JwtClaims
  deriving Repr, DecidableEq

/-- `LoginUserUseCase.execute`: look the user up by email, fetch the
mongoose document by id, compare the password against the stored bcrypt
hash (`compare` abstracts `bcrypt.compare`), and sign a token embedding
id/email/role.  Lookup failure and hash mismatch throw the identical
`Error('Invalid email or password')`. -/
def loginExecute (store : UserStore) (compare : String → String → Bool)
    (email password : String) : Except String LoginUserOutput :=
  match findByEmail store email with
  | none => .error "Invalid email or password"
  | some user =>
    match findById store user.id with
    | none => .error "User not found"
    | some userDoc =>
      if compare password userDoc.password then
        .ok { userId := user.id, userName := user.name, userEmail := user.email,
              userRole := user.role,
              tokenClaims := { id := user.id, email := user.email, role := user.role } }
      else .error "Invalid email or password"

/-- `AuthController.login` composed with the global error handler: a
thrown `'Invalid email or password'` becomes `AppError 401` with that
message; any other thrown error reaches `errorHandler` as a plain
`Error` and maps to status 500. -/
def authControllerLoginHttp (store : UserStore) (compare : String → String → Bool)
    (email password : String) : Nat × String :=
  match loginExecute store compare email password with
  | .ok _ => (200, "Login successful")
  | .error m => if m == "Invalid email or password" then (401, "Invalid email or password") else (500, m)

/-- Input of the `User` entity constructor (`IUser` without the
persistence fields). -/
structure NewUserInput where
  name : String
  email : String
  password : String
  role : String
  deriving Repr, DecidableEq

/-- Anchored match of the entity's email regex
`/^[^\s@]+@[^\s@]+\.[^\s@]+$/`: exactly one `'@'`, no whitespace, a
non-empty local part, and a domain part with an interior `'.'`. -/
def isValidEmail (s : String) : Bool :=
  match splitOnChar '@' s.data with
  | [a, b] =>
    !a.isEmpty && a.all (fun c => !c.isWhitespace) &&
    !b.isEmpty && b.all (fun c => !c.isWhitespace) &&
    ((b.drop 1).dropLast.contains '.')
  | _ => false

/-- `User.validate` (the entity constructor throws these errors). -/
def userValidate (u : NewUserInput) : Except String Unit :=
  if u.name = "" ∨ (strTrim u.name).length < 2 then
    .error "Name must be at least 2 characters long"
  else if u.email = "" ∨ isValidEmail u.email = false then
    .error "Valid email is required"
  else if u.password = "" ∨ u.password.length < 6 then
    .error "Password must be at least 6 characters long"
  else .ok ()

/-- The validation invariant the `User` entity enforces: trimmed name of
length at least 2, regex-valid email, password of length at least 6. -/
def userInvariant (u : NewUserInput) : Bool :=
  decide (2 ≤ (strTrim u.name).length) && isValidEmail u.email &&
  decide (6 ≤ u.password.length)

/-- `UserRepository.create`: construct a `User` entity from the data
(which throws on validation failure) and then `UserModel.create` it; the
schema trims the name, trims and lowercases the email, and the pre-save
hook replaces the password by its bcrypt hash (`hashFn`).  `fresh` is
the id MongoDB assigns. -/
def repoCreate (hashFn : String → String) (fresh : String) (store : UserStore)
    (u : NewUserInput) : Except String (StoredUser × UserStore) :=
  match userValidate u with
  | .error m => .error m
  | .ok _ =>
    let doc : StoredUser :=
      { id := fresh, name := strTrim u.name, email := strLower (strTrim u.email),
        password := hashFn u.password, role := u.role }
    .ok (doc, store ++ [doc])

/-- `RegisterUserUseCase.execute`: explicit `emailExists` check first
(throwing `'Email already in use'` before anything is inserted), then
`new User(...)` (validation) and `userRepository.create`. -/
def registerExecute (hashFn : String → String) (fresh : String) (store : UserStore)
    (name email password : String) (role : Option String) :
    Except String (StoredUser × UserStore) :=
  if emailExists store email then .error "Email already in use"
  else
    match userValidate { name := name, email := email, password := password,
                         role := role.getD "user" } with
    | .error m => .error m
    | .ok _ =>
      repoCreate hashFn fresh store
        { name := name, email := email, password := password, role := role.getD "user" }

/-! ## Server: auth router, token middleware and refresh controller -/

/-- HTTP methods used by the routers. -/
inductive HttpMethod where
  | get
  | post
  deriving Repr, DecidableEq, BEq

/-- The routes registered on the auth router
(`routes/auth.routes.ts`): register, login, refresh (guarded by
`validateToken`) and logout — all POST. -/
def authRouterRoutes : List (HttpMethod × String) :=
  [(.post, "/register"), (.post, "/login"), (.post, "/refresh"), (.post, "/logout")]

/-- Errors `jsonwebtoken.verify` can throw (`TokenExpiredError`,
`JsonWebTokenError`). -/
inductive JwtError where
  | expired
  | malformed
  deriving Repr, DecidableEq

/-- An inbound server request as seen by the auth middleware and the
refresh controller: the `token` cookie and the `Authorization` header,
each possibly absent. -/
structure ServerReq where
  cookieToken : Option String
  authHeader : Option String
  deriving Repr, DecidableEq

/-- `validateToken` middleware: requires an `Authorization` header
starting with `'Bearer '`, extracts `header.split(' ')[1]`, and verifies
it; it never reads the cookie.  `verify` abstracts
`jwt.verify(token, config.jwt.secret)`. -/
def validateToken (verify : String → Except JwtError JwtClaims) (req : ServerReq) :
    Except (Nat × String) Unit :=
  match req.authHeader with
  | none => .error (401, "Token required")
  | some h =>
    if strStartsWith h "Bearer " = false then .error (401, "Token required")
    else
      let token : String := ⟨(splitOnChar ' ' h.data).getD 1 []⟩
      if token == "" then .error (401, "Token missing")
      else
        match verify token with
        | .ok _ => .ok ()
        | .error _ => .error (401, "Invalid or expired token")

/-- Token extraction in `AuthController.refreshToken`:
`req.cookies.token || req.header('Authorization')?.replace('Bearer ', '')`. -/
def extractRefreshToken (req : ServerReq) : Option String :=
  match req.cookieToken with
  | some c =>
    if c == "" then req.authHeader.map (fun h => replaceFirstStr h "Bearer ")
    else some c
  | none => req.authHeader.map (fun h => replaceFirstStr h "Bearer ")

/-- `AuthController.refreshToken`: take the token from cookie or bearer
header, verify it (same `verify`), re-confirm the subject still exists,
and reissue; distinct 401 messages for missing token, expired token,
malformed token and deleted subject. -/
def refreshTokenController (verify : String → Except JwtError JwtClaims)
    (store : UserStore) (req : ServerReq) : Nat × String :=
  match extractRefreshToken req with
  | none => (401, "No token provided")
  | some tok =>
    if tok == "" then (401, "No token provided")
    else
      match verify tok with
      | .error .expired => (401, "Token expired")
      | .error .malformed => (401, "Invalid token")
      | .ok decoded =>
        match findById store decoded.id with
        | none => (401, "User not found")
        | some _ => (200, "Token refreshed successfully")

/-- The full `POST /auth/refresh` route:
`router.post('/refresh', validateToken, authController.refreshToken)`. -/
def refreshRoute (verify : String → Except JwtError JwtClaims)
    (store : UserStore) (req : ServerReq) : Nat × String :=
  match validateToken verify req with
  | .error e => e
  | .ok _ => refreshTokenController verify store req

/-! ## Helper lemmas -/

theorem dropWhile_eq_self_of_all (p : Char → Bool) (l : List Char)
    (h : ∀ c ∈ l, p c = false) : l.dropWhile p = l := by
  cases l with
  | nil => rfl
  | cons a t => simp [List.dropWhile_cons, h a (List.mem_cons_self a t)]

theorem strTrim_eq_self (s : String) (h : ∀ c ∈ s.data, c.isWhitespace = false) :
    strTrim s = s := by
  unfold strTrim
  rw [dropWhile_eq_self_of_all _ _ h]
  rw [dropWhile_eq_self_of_all _ _ (fun c hc => h c (List.mem_reverse.mp hc))]
  rw [List.reverse_reverse]

theorem splitOnChar_ne_nil (sep : Char) (l : List Char) : splitOnChar sep l ≠ [] := by
  cases l with
  | nil => simp [splitOnChar]
  | cons c rest =>
    simp only [splitOnChar]
    cases hc : c == sep with
    | true => simp
    | false =>
      simp only [Bool.false_eq_true, if_false]
      cases splitOnChar sep rest <;> simp

theorem joinSep_cons_cons (sep c : Char) (a : List Char) (t : List (List Char)) :
    joinSep sep ((c :: a) :: t) = c :: joinSep sep (a :: t) := by
  cases t <;> simp [joinSep]

theorem joinSep_splitOnChar (sep : Char) (l : List Char) :
    joinSep sep (splitOnChar sep l) = l := by
  induction l with
  | nil => rfl
  | cons c rest ih =>
    simp only [splitOnChar]
    cases hc : c == sep with
    | true =>
      simp only [if_true]
      cases hr : splitOnChar sep rest with
      | nil => exact absurd hr (splitOnChar_ne_nil sep rest)
      | cons a t =>
        rw [hr] at ih
        simp only [joinSep, List.nil_append]
        rw [ih, eq_of_beq hc]
    | false =>
      simp only [Bool.false_eq_true, if_false]
      cases hr : splitOnChar sep rest with
      | nil => exact absurd hr (splitOnChar_ne_nil sep rest)
      | cons a t =>
        rw [hr] at ih
        rw [joinSep_cons_cons, ih]

theorem isValidEmail_no_ws (s : String) (h : isValidEmail s = true) :
    ∀ c ∈ s.data, c.isWhitespace = false := by
  intro c hc
  unfold isValidEmail at h
  cases hsp : splitOnChar '@' s.data with
  | nil => rw [hsp] at h; simp at h
  | cons a t =>
    cases t with
    | nil => rw [hsp] at h; simp at h
    | cons b t2 =>
      cases t2 with
      | cons x t3 => rw [hsp] at h; simp at h
      | nil =>
        rw [hsp] at h
        simp only [Bool.and_eq_true, List.all_eq_true] at h
        have hj := joinSep_splitOnChar '@' s.data
        rw [hsp] at hj
        simp only [joinSep] at hj
        rw [← hj] at hc
        rcases List.mem_append.mp hc with h1 | h2
        · have := h.1.1.1.2 c h1
          simpa using this
        · rcases List.mem_cons.mp h2 with h3 | h4
          · rw [h3]; decide
          · have := h.1.2 c h4
            simpa using this

/-! ## Claims -/

/-- Claim C4: a 401 on a request to the login or refresh endpoint itself
never triggers a refresh attempt by the error interceptor; such failures
are terminal (login: fixed message; refresh: logout and redirect) and no
`verifyToken()` call is made in reaction to them. -/
theorem auth_endpoint_401_no_refresh (s : AuthState) (url baseMsg : String)
    (h : urlIncludes url "/login" = true ∨ urlIncludes url "/refresh" = true) :
    intercept401RefreshAttempts (intercept401 s url baseMsg) = 0 := by
  unfold intercept401
  rcases h with h | h
  · simp [h, intercept401RefreshAttempts]
  · by_cases hl : urlIncludes url "/login" = true
    · simp [hl, intercept401RefreshAttempts]
    · by_cases ht : urlIncludes url "/tasks" = true
      · simp [hl, ht, h, intercept401RefreshAttempts]
      · simp [hl, ht, h, intercept401RefreshAttempts]

/-- Witness for C4 at the concrete login and refresh endpoint URLs. -/
theorem auth_endpoint_401_no_refresh_witness :
    intercept401RefreshAttempts
      (intercept401 ⟨none, none, [], 0⟩ (apiUrl ++ "/auth/login") "m") = 0 ∧
    intercept401RefreshAttempts
      (intercept401 ⟨none, none, [], 0⟩ (apiUrl ++ "/auth/refresh") "m") = 0 :=
  ⟨auth_endpoint_401_no_refresh ⟨none, none, [], 0⟩ (apiUrl ++ "/auth/login") "m"
     (Or.inl (by decide)),
   auth_endpoint_401_no_refresh ⟨none, none, [], 0⟩ (apiUrl ++ "/auth/refresh") "m"
     (Or.inr (by decide))⟩

/-- Claim C5: server-side `authenticate` fails with the identical error
type and message whether the email is unregistered or the password hash
comparison fails, and at the HTTP boundary both map to the same 401
response. -/
theorem login_failures_indistinguishable (store : UserStore)
    (compare : String → String → Bool) (e1 p1 e2 p2 : String) (u udoc : StoredUser)
    (h1 : findByEmail store e1 = none)
    (h2 : findByEmail store e2 = some u)
    (h3 : findById store u.id = some udoc)
    (h4 : compare p2 udoc.password = false) :
    loginExecute store compare e1 p1 = .error "Invalid email or password" ∧
    loginExecute store compare e2 p2 = .error "Invalid email or password" ∧
    authControllerLoginHttp store compare e1 p1 = (401, "Invalid email or password") ∧
    authControllerLoginHttp store compare e2 p2 = (401, "Invalid email or password") := by
  have hA : loginExecute store compare e1 p1 = .error "Invalid email or password" := by
    simp [loginExecute, h1]
  have hB : loginExecute store compare e2 p2 = .error "Invalid email or password" := by
    simp [loginExecute, h2, h3, h4]
  refine ⟨hA, hB, ?_, ?_⟩
  · simp [authControllerLoginHttp, hA]
  · simp [authControllerLoginHttp, hB]

/-- Witness for C5: a one-user store where a wrong password and an
unknown email produce the same error and the same 401 response. -/
theorem login_failures_indistinguishable_witness :
    loginExecute [⟨"u1", "Alice", "alice@x.com", "HASHsecret1", "user"⟩]
        (fun p hsh => ("HASH" ++ p) == hsh) "bob@x.com" "whatever"
      = .error "Invalid email or password" ∧
    loginExecute [⟨"u1", "Alice", "alice@x.com", "HASHsecret1", "user"⟩]
        (fun p hsh => ("HASH" ++ p) == hsh) "alice@x.com" "wrongpw"
      = .error "Invalid email or password" ∧
    authControllerLoginHttp [⟨"u1", "Alice", "alice@x.com", "HASHsecret1", "user"⟩]
        (fun p hsh => ("HASH" ++ p) == hsh) "bob@x.com" "whatever"
      = (401, "Invalid email or password") ∧
    authControllerLoginHttp [⟨"u1", "Alice", "alice@x.com", "HASHsecret1", "user"⟩]
        (fun p hsh => ("HASH" ++ p) == hsh) "alice@x.com" "wrongpw"
      = (401, "Invalid email or password") :=
  login_failures_indistinguishable
    [⟨"u1", "Alice", "alice@x.com", "HASHsecret1", "user"⟩]
    (fun p hsh => ("HASH" ++ p) == hsh) "bob@x.com" "whatever" "alice@x.com" "wrongpw"
    ⟨"u1", "Alice", "alice@x.com", "HASHsecret1", "user"⟩
    ⟨"u1", "Alice", "alice@x.com", "HASHsecret1", "user"⟩
    (by decide) (by decide) (by decide) (by decide)

/-- Claim C7: client `logout()` is total (never throws), unconditionally
clears the in-memory session and stops the refresh timer regardless of
the server call's outcome (`serverOk` does not influence the state), and
is idempotent: a second `logout()` leaves the state unchanged and the
session `Anonymous` both times. -/
theorem logout_idempotent_clears_state (ok1 nav : Bool) (s : AuthState) :
    (logout ok1 nav s).1.user = none ∧
    (logout ok1 nav s).1.timerHandle = none ∧
    (∀ ok2, logout ok2 nav s = logout ok1 nav s) ∧
    (∀ ok2, (logout ok2 nav ((logout ok1 nav s).1)).1 = (logout ok1 nav s).1) := by
  refine ⟨?_, ?_, fun ok2 => rfl, fun ok2 => ?_⟩
  · rfl
  · cases hs : s.timerHandle <;> simp [logout, stopRefreshTokenTimer, hs]
  · cases hs : s.timerHandle <;> simp [logout, stopRefreshTokenTimer, hs]

/-- Claim C1 counterexample: a 401 on an API request whose URL contains
`/tasks` — an ordinary API request outside the auth flow — while a
session exists is re-thrown for `TaskService` and triggers zero refresh
attempts, not exactly one. -/
theorem tasks_request_no_refresh_attempt :
    intercept401
      ⟨some ⟨"u1", "Al", "a@b.co", "user", some ⟨"tok", some ⟨some 99⟩⟩⟩, none, [], 0⟩
      (apiUrl ++ "/tasks/1") "m" = .rethrowOriginal ∧
    intercept401RefreshAttempts
      (intercept401
        ⟨some ⟨"u1", "Al", "a@b.co", "user", some ⟨"tok", some ⟨some 99⟩⟩⟩, none, [], 0⟩
        (apiUrl ++ "/tasks/1") "m") = 0 := by
  constructor <;> decide

/-- Claim C1 (amended): for a 401 on a non-auth API request whose URL
does not contain `/tasks`, while a session exists, the interceptor makes
exactly one refresh attempt; if the refresh succeeds the original
request is retried exactly once, carrying a bearer header with the token
of the user present at retry time; if the refresh fails, `logout()` is
invoked (clearing the session), the user is redirected to `/login`, and
no retry occurs. -/
theorem api_401_refresh_retry_once (s : AuthState) (url baseMsg : String)
    (hApi : strStartsWith url apiUrl = true)
    (hRef : urlIncludes url "/refresh" = false)
    (hLog : urlIncludes url "/login" = false)
    (hTask : urlIncludes url "/tasks" = false)
    (hUser : s.user.isSome = true) :
    intercept401 s url baseMsg = .refreshFlow ∧
    intercept401RefreshAttempts (intercept401 s url baseMsg) = 1 ∧
    (∀ s2 : AuthState,
      (handleUnauthorizedError (some s2)).refreshAttempts = 1 ∧
      (handleUnauthorizedError (some s2)).retries = 1 ∧
      (handleUnauthorizedError (some s2)).loggedOut = false ∧
      (∀ u t, s2.user = some u → u.token = some t → t.raw ≠ "" →
        (handleUnauthorizedError (some s2)).retryAuthHeader = some ("Bearer " ++ t.raw))) ∧
    ((handleUnauthorizedError none).refreshAttempts = 1 ∧
     (handleUnauthorizedError none).retries = 0 ∧
     (handleUnauthorizedError none).loggedOut = true ∧
     (handleUnauthorizedError none).navigatedTo = some "/login") := by
  have hmain : intercept401 s url baseMsg = .refreshFlow := by
    simp [intercept401, hApi, hRef, hLog, hTask, hUser]
  refine ⟨hmain, by rw [hmain]; rfl, ?_, ⟨rfl, rfl, rfl, rfl⟩⟩
  intro s2
  refine ⟨rfl, rfl, rfl, ?_⟩
  intro u t hu ht hraw
  simp [handleUnauthorizedError, hu, ht, hraw]

/-- Witness for the amended C1 at a concrete non-tasks API URL and
concrete states. -/
theorem api_401_refresh_retry_once_witness :
    intercept401
      ⟨some ⟨"u1", "Al", "a@b.co", "user", some ⟨"tok", some ⟨some 99⟩⟩⟩, none, [], 0⟩
      (apiUrl ++ "/users/5") "m" = .refreshFlow ∧
    (handleUnauthorizedError
      (some ⟨some ⟨"u1", "Al", "a@b.co", "user", some ⟨"newtok", some ⟨some 200⟩⟩⟩, none, [], 0⟩)).retryAuthHeader
      = some ("Bearer " ++ "newtok") := by
  have h := api_401_refresh_retry_once
    ⟨some ⟨"u1", "Al", "a@b.co", "user", some ⟨"tok", some ⟨some 99⟩⟩⟩, none, [], 0⟩
    (apiUrl ++ "/users/5") "m"
    (by decide) (by decide) (by decide) (by decide) (by decide)
  exact ⟨h.1,
    (h.2.2.1 ⟨some ⟨"u1", "Al", "a@b.co", "user", some ⟨"newtok", some ⟨some 200⟩⟩⟩, none, [], 0⟩).2.2.2
      ⟨"u1", "Al", "a@b.co", "user", some ⟨"newtok", some ⟨some 200⟩⟩⟩
      ⟨"newtok", some ⟨some 200⟩⟩ rfl rfl (by decide)⟩

/-- Claim C2 counterexample: with a held token whose decoded expiry (5)
is already in the past (now = 100), the client's `verifyToken()` makes
zero reissue calls — it fails locally with `'Token expired'` — whereas
the claim requires exactly one reissue call. -/
theorem expired_token_no_reissue_call :
    verifyTokenRun 100
      ⟨some ⟨"u1", "Al", "a@b.co", "user", some ⟨"tok", some ⟨some 5⟩⟩⟩, none, [], 0⟩ true
      = .localError "Token expired" 0 ∧
    verifyTokenRun 100
      ⟨some ⟨"u1", "Al", "a@b.co", "user", some ⟨"tok", some ⟨some 5⟩⟩⟩, none, [], 0⟩ false
      = .localError "Token expired" 0 := by
  constructor <;> decide

/-- Claim C2 (amended): when the locally decoded expiry of the held
token is truthy and already in the past, `verifyToken()` makes no
network call and propagates a local `'Token expired'` error; otherwise
it makes exactly one reissue call and propagates that call's outcome to
its caller without retrying (success and failure each yield exactly one
HTTP call). -/
theorem refresh_single_attempt_propagates (nowSec : Int) (s : AuthState) (respOk : Bool)
    (u : ClientUser) (t : Jwt)
    (hu : s.user = some u) (ht : u.token = some t) (hraw : t.raw ≠ "") :
    (∀ td e, parseJwt t = some td → td.exp = some e → e ≠ 0 → e < nowSec →
      verifyTokenRun nowSec s respOk = .localError "Token expired" 0) ∧
    (∀ td e, parseJwt t = some td → td.exp = some e → e ≠ 0 → ¬(e < nowSec) →
      verifyTokenRun nowSec s respOk =
        (if respOk then .refreshed 1 else .propagatedError 1)) ∧
    (parseJwt t = none →
      verifyTokenRun nowSec s respOk =
        (if respOk then .refreshed 1 else .propagatedError 1)) := by
  refine ⟨?_, ?_, ?_⟩
  · intro td e hp he hz hlt
    have hz' : (e != 0) = true := by simpa using hz
    simp [verifyTokenRun, verifyToken, hu, ht, hraw, hp, he, hz', hlt]
  · intro td e hp he hz hge
    have hz' : (e != 0) = true := by simpa using hz
    simp [verifyTokenRun, verifyToken, hu, ht, hraw, hp, he, hz', hge]
  · intro hp
    simp [verifyTokenRun, verifyToken, hu, ht, hraw, hp]

/-- Witness for the amended C2: a not-yet-expired token produces exactly
one reissue call whose failure is propagated. -/
theorem refresh_single_attempt_propagates_witness :
    verifyTokenRun 100
      ⟨some ⟨"u1", "Al", "a@b.co", "user", some ⟨"tok", some ⟨some 500⟩⟩⟩, none, [], 0⟩ false
      = .propagatedError 1 :=
  (refresh_single_attempt_propagates 100
      ⟨some ⟨"u1", "Al", "a@b.co", "user", some ⟨"tok", some ⟨some 500⟩⟩⟩, none, [], 0⟩ false
      ⟨"u1", "Al", "a@b.co", "user", some ⟨"tok", some ⟨some 500⟩⟩⟩
      ⟨"tok", some ⟨some 500⟩⟩ rfl rfl (by decide)).2.1
    ⟨some 500⟩ 500 rfl rfl (by decide) (by decide)

/-- Claim C3 counterexample: the server's auth router registers no
`GET /verify` route (its routes are exactly the four POSTs), so the
claimed `GET /auth/verify` endpoint does not exist on the server. -/
theorem no_get_verify_route :
    authRouterRoutes.contains (HttpMethod.get, "/verify") = false := by decide

/-- Claim C3 (amended): the server's auth router exposes only the four
POST routes (register, login, refresh, logout) and no GET route at all —
in particular no `GET /auth/verify` — while the client's verify-on-load
(`autoLogin`) does call `GET /auth/verify` relying on the cookie and, on
any failure, leaves the session `Anonymous` (user `null`) without
surfacing an error or any further action. -/
theorem verify_on_load_silent_anonymous :
    (authRouterRoutes.all (fun r => r.1 == HttpMethod.post) = true) ∧
    (authRouterRoutes.contains (HttpMethod.get, "/register") = false ∧
     authRouterRoutes.contains (HttpMethod.get, "/login") = false ∧
     authRouterRoutes.contains (HttpMethod.get, "/refresh") = false ∧
     authRouterRoutes.contains (HttpMethod.get, "/logout") = false) ∧
    (∀ (decode : String → Option JwtPayload) (nowMs : Int) (st : Nat) (s : AuthState),
      (autoLogin decode nowMs (.error st) s).1.user = none ∧
      (autoLogin decode nowMs (.error st) s).2 = []) := by
  refine ⟨by decide, ⟨by decide, by decide, by decide, by decide⟩, ?_⟩
  intro decode nowMs st s
  exact ⟨rfl, rfl⟩

/-- Claim C9 counterexample: a refresh request presenting a valid token
only via the cookie (no `Authorization` header) is rejected 401 `'Token
required'` by the `validateToken` middleware guarding `POST
/auth/refresh`, even with a verifier that accepts every token and a
store containing the subject — the claim says such a request succeeds. -/
theorem cookie_only_refresh_rejected :
    refreshRoute (fun _ => .ok ⟨"u1", "a@b.co", "user"⟩)
      [⟨"u1", "Al", "a@b.co", "h", "user"⟩]
      ⟨some "tok", none⟩ = (401, "Token required") := rfl

/-- Claim C9 (amended): the refresh controller itself accepts the token
from either the cookie or the `Authorization: Bearer` header and routes
either carrier into the same `verify` call, succeeding on a valid
cookie-only token whose subject exists; but the `validateToken`
middleware in front of the route reads only the `Authorization` header,
so any request without that header — in particular a cookie-only
request — is rejected with 401 `'Token required'` before reaching the
controller. -/
theorem refresh_token_carriers (verify : String → Except JwtError JwtClaims)
    (store : UserStore) :
    (∀ c : Option String, refreshRoute verify store ⟨c, none⟩ = (401, "Token required")) ∧
    (∀ c claims u, c ≠ "" → verify c = .ok claims → findById store claims.id = some u →
      refreshTokenController verify store ⟨some c, none⟩ = (200, "Token refreshed successfully")) ∧
    (∀ h : String, extractRefreshToken ⟨none, some h⟩ = some (replaceFirstStr h "Bearer ")) ∧
    (∀ h claims u, replaceFirstStr h "Bearer " ≠ "" →
      verify (replaceFirstStr h "Bearer ") = .ok claims →
      findById store claims.id = some u →
      refreshTokenController verify store ⟨none, some h⟩ = (200, "Token refreshed successfully")) := by
  refine ⟨fun c => rfl, ?_, fun h => rfl, ?_⟩
  · intro c claims u hc hv hu
    have hc' : (c == "") = false := by simpa using hc
    simp [refreshTokenController, extractRefreshToken, hc', hv, hu]
  · intro h claims u hne hv hu
    have hne' : (replaceFirstStr h "Bearer " == "") = false := by simpa using hne
    simp [refreshTokenController, extractRefreshToken, hne', hv, hu]

/-- Witness for the amended C9 at concrete requests, verifier and
store. -/
theorem refresh_token_carriers_witness :
    refreshRoute (fun t => if t == "tok" then .ok ⟨"u1", "a@b.co", "user"⟩ else .error .malformed)
      [⟨"u1", "Al", "a@b.co", "h", "user"⟩] ⟨some "tok", none⟩ = (401, "Token required") ∧
    refreshTokenController
      (fun t => if t == "tok" then .ok ⟨"u1", "a@b.co", "user"⟩ else .error .malformed)
      [⟨"u1", "Al", "a@b.co", "h", "user"⟩] ⟨some "tok", none⟩
      = (200, "Token refreshed successfully") ∧
    refreshTokenController
      (fun t => if t == "tok" then .ok ⟨"u1", "a@b.co", "user"⟩ else .error .malformed)
      [⟨"u1", "Al", "a@b.co", "h", "user"⟩] ⟨none, some "Bearer tok"⟩
      = (200, "Token refreshed successfully") := by
  have h := refresh_token_carriers
    (fun t => if t == "tok" then .ok ⟨"u1", "a@b.co", "user"⟩ else .error .malformed)
    [⟨"u1", "Al", "a@b.co", "h", "user"⟩]
  refine ⟨h.1 (some "tok"), ?_, ?_⟩
  · exact h.2.1 "tok" ⟨"u1", "a@b.co", "user"⟩ ⟨"u1", "Al", "a@b.co", "h", "user"⟩
      (by decide) rfl rfl
  · exact h.2.2.2 "Bearer tok" ⟨"u1", "a@b.co", "user"⟩ ⟨"u1", "Al", "a@b.co", "h", "user"⟩
      (by decide) rfl rfl

theorem userValidate_ok_iff (u : NewUserInput) :
    userValidate u = .ok () ↔ userInvariant u = true := by
  unfold userValidate userInvariant
  by_cases e1 : u.name = ""
  · have h0 : (strTrim u.name).length = 0 := by rw [e1]; rfl
    simp [e1, h0]
    exact fun h => absurd h (by decide)
  · by_cases l1 : (strTrim u.name).length < 2
    · have hn : ¬(2 ≤ (strTrim u.name).length) := by omega
      simp [e1, l1, hn]
    · have hge1 : 2 ≤ (strTrim u.name).length := by omega
      by_cases e2 : u.email = ""
      · have hf : isValidEmail u.email = false := by rw [e2]; rfl
        simp [e1, l1, e2, hf, hge1]
        exact fun h => absurd h (by decide)
      · by_cases hve : isValidEmail u.email = true
        · by_cases e3 : u.password = ""
          · have hp0 : u.password.length = 0 := by rw [e3]; rfl
            simp [e1, l1, e2, hve, e3, hp0, hge1]
          · by_cases l3 : u.password.length < 6
            · have hn : ¬(6 ≤ u.password.length) := by omega
              simp [e1, l1, e2, hve, e3, l3, hn, hge1]
            · have hge3 : 6 ≤ u.password.length := by omega
              simp [e1, l1, e2, hve, e3, l3, hge1, hge3]
        · have hf : isValidEmail u.email = false := by simpa using hve
          simp [e1, l1, e2, hf, hge1]

theorem userInvariant_email (u : NewUserInput) (h : userInvariant u = true) :
    isValidEmail u.email = true := by
  unfold userInvariant at h
  simp only [Bool.and_eq_true] at h
  exact h.1.2

/-- Claim C10: the `User` entity constructor enforces the validation
invariant (trimmed name of length at least 2, regex-valid email,
password of length at least 6), throwing on any violation; both the
register use-case and the repository's `create` construct a `User`
before inserting, so every record a successful `create`/`register`
persists satisfied the invariant at insert time — no violating user
record is ever stored through them. -/
theorem user_validation_invariant :
    (∀ u : NewUserInput, (userValidate u = .ok () ↔ userInvariant u = true)) ∧
    (∀ u : NewUserInput, userInvariant u = false → ∃ m, userValidate u = .error m) ∧
    (∀ (hashFn : String → String) (fresh : String) (store : UserStore) (u : NewUserInput)
        (doc : StoredUser) (store2 : UserStore),
      repoCreate hashFn fresh store u = .ok (doc, store2) →
      userInvariant u = true ∧ store2 = store ++ [doc]) ∧
    (∀ (hashFn : String → String) (fresh : String) (store : UserStore)
        (n e p : String) (r : Option String) (doc : StoredUser) (store2 : UserStore),
      registerExecute hashFn fresh store n e p r = .ok (doc, store2) →
      userInvariant ⟨n, e, p, r.getD "user"⟩ = true) := by
  have hrepo : ∀ (hashFn : String → String) (fresh : String) (store : UserStore)
      (u : NewUserInput) (doc : StoredUser) (store2 : UserStore),
      repoCreate hashFn fresh store u = .ok (doc, store2) →
      userInvariant u = true ∧ store2 = store ++ [doc] := by
    intro hashFn fresh store u doc store2 hc
    unfold repoCreate at hc
    cases hv : userValidate u with
    | error m => rw [hv] at hc; simp at hc
    | ok a =>
      cases a
      rw [hv] at hc
      simp only [Except.ok.injEq, Prod.mk.injEq] at hc
      refine ⟨(userValidate_ok_iff u).mp hv, ?_⟩
      rw [← hc.2, ← hc.1]
  refine ⟨userValidate_ok_iff, ?_, hrepo, ?_⟩
  · intro u hf
    cases hv : userValidate u with
    | ok a =>
      cases a
      have hti := (userValidate_ok_iff u).mp hv
      rw [hf] at hti
      cases hti
    | error m => exact ⟨m, rfl⟩
  · intro hashFn fresh store n e p r doc store2 hr
    unfold registerExecute at hr
    by_cases hex : emailExists store e = true
    · rw [if_pos hex] at hr; cases hr
    · rw [if_neg hex] at hr
      cases hv : userValidate ⟨n, e, p, r.getD "user"⟩ with
      | error m => rw [hv] at hr; simp at hr
      | ok a =>
        cases a
        rw [hv] at hr
        exact (hrepo _ _ _ _ _ _ hr).1

/-- Witness for C10: a valid input registers (its invariant holds at
insert time) and an input with a one-character name is rejected by the
entity constructor. -/
theorem user_validation_invariant_witness :
    userInvariant ⟨"Jo", "a@b.co", "secret1", "user"⟩ = true ∧
    (∃ m, userValidate ⟨"J", "a@b.co", "secret1", "user"⟩ = .error m) :=
  ⟨(user_validation_invariant.2.2.1 (fun p => String.append "H" p) "id1" []
      ⟨"Jo", "a@b.co", "secret1", "user"⟩
      ⟨"id1", "Jo", "a@b.co", "Hsecret1", "user"⟩
      [⟨"id1", "Jo", "a@b.co", "Hsecret1", "user"⟩] rfl).1,
   user_validation_invariant.2.1 ⟨"J", "a@b.co", "secret1", "user"⟩ (by decide)⟩

/-- Claim C6: email lookup (`findByEmail`/`emailExists`) is
case-insensitive; a registration for an email that already exists fails
with `'Email already in use'` via the explicit existence check that runs
before any insert (the error carries no new store, so nothing is
persisted); and after a successful registration the stored record's
email is the lowercased input so that a second registration with the
same email in any letter case fails with the duplicate-email error. -/
theorem duplicate_email_rejected_case_insensitive :
    (∀ (store : UserStore) (e1 e2 : String), strLower e1 = strLower e2 →
      findByEmail store e1 = findByEmail store e2 ∧
      emailExists store e1 = emailExists store e2) ∧
    (∀ (hashFn : String → String) (fresh : String) (store : UserStore)
        (n e p : String) (r : Option String), emailExists store e = true →
      registerExecute hashFn fresh store n e p r = .error "Email already in use") ∧
    (∀ (hashFn : String → String) (fresh : String) (store : UserStore)
        (n e p : String) (r : Option String) (doc : StoredUser) (store2 : UserStore),
      registerExecute hashFn fresh store n e p r = .ok (doc, store2) →
      doc.email = strLower e ∧ doc ∈ store2 ∧
      (∀ (hashFn2 : String → String) (fresh2 : String) (n2 e2 p2 : String) (r2 : Option String),
        strLower e2 = strLower e →
        registerExecute hashFn2 fresh2 store2 n2 e2 p2 r2 = .error "Email already in use")) := by
  refine ⟨?_, ?_, ?_⟩
  · intro store e1 e2 h
    unfold findByEmail emailExists
    rw [h]
    exact ⟨rfl, rfl⟩
  · intro hashFn fresh store n e p r hex
    unfold registerExecute
    rw [if_pos hex]
  · intro hashFn fresh store n e p r doc store2 hr
    unfold registerExecute at hr
    by_cases hex : emailExists store e = true
    · rw [if_pos hex] at hr; cases hr
    · rw [if_neg hex] at hr
      cases hv : userValidate ⟨n, e, p, r.getD "user"⟩ with
      | error m => rw [hv] at hr; simp at hr
      | ok a =>
        cases a
        have htrim : strTrim e = e := by
          apply strTrim_eq_self
          exact isValidEmail_no_ws e (userInvariant_email _ ((userValidate_ok_iff _).mp hv))
        rw [hv] at hr
        unfold repoCreate at hr
        rw [hv] at hr
        simp only [Except.ok.injEq, Prod.mk.injEq] at hr
        obtain ⟨hdoc, hst⟩ := hr
        subst hdoc
        subst hst
        refine ⟨?_, ?_, ?_⟩
        · show strLower (strTrim e) = strLower e
          rw [htrim]
        · exact List.mem_append_right _ (List.mem_singleton_self _)
        · intro hashFn2 fresh2 n2 e2 p2 r2 he2
          have hex2 : emailExists
              (store ++ [{ id := fresh, name := strTrim n, email := strLower (strTrim e),
                           password := hashFn p, role := r.getD "user" }]) e2 = true := by
            unfold emailExists
            apply List.any_eq_true.mpr
            refine ⟨_, List.mem_append_right _ (List.mem_singleton_self _), ?_⟩
            show (strLower (strTrim e) == strLower e2) = true
            rw [htrim, he2]
            exact beq_self_eq_true _
          unfold registerExecute
          rw [if_pos hex2]

/-- Witness for C6: registering `Alice@X.com` stores `alice@x.com`;
looking up `ALICE@X.com` equals looking up `alice@x.com`; a second
registration with `ALICE@x.COM` fails with the duplicate-email error. -/
theorem duplicate_email_rejected_case_insensitive_witness :
    findByEmail [⟨"id1", "Alice", "alice@x.com", "Hsecret1", "user"⟩] "ALICE@X.com" =
      findByEmail [⟨"id1", "Alice", "alice@x.com", "Hsecret1", "user"⟩] "alice@x.com" ∧
    registerExecute (fun p => String.append "H" p) "id2"
      [⟨"id1", "Alice", "alice@x.com", "Hsecret1", "user"⟩] "Bob" "ALICE@x.COM" "secret2" none
      = .error "Email already in use" :=
  ⟨(duplicate_email_rejected_case_insensitive.1
      [⟨"id1", "Alice", "alice@x.com", "Hsecret1", "user"⟩] "ALICE@X.com" "alice@x.com"
      (by decide)).1,
   (duplicate_email_rejected_case_insensitive.2.2 (fun p => String.append "H" p) "id1" []
      "Alice" "Alice@X.com" "secret1" none
      ⟨"id1", "Alice", "alice@x.com", "Hsecret1", "user"⟩
      [⟨"id1", "Alice", "alice@x.com", "Hsecret1", "user"⟩] rfl).2.2
      (fun p => String.append "H" p) "id2" "Bob" "ALICE@x.COM" "secret2" none (by decide)⟩

theorem timer_stop_eq (s : AuthState) (h : timerInv s) :
    stopRefreshTokenTimer s = ⟨s.user, none, [], s.nextHandle⟩ := by
  cases s with
  | mk u th pd nh =>
    unfold stopRefreshTokenTimer
    cases th with
    | none =>
      have hpd : pd = [] := by
        cases hsp : pd with
        | nil => rfl
        | cons p t =>
          have hm := h.2 p (by rw [hsp]; exact List.mem_cons_self p t)
          exact absurd hm (by simp)
      simp [hpd]
    | some hdl =>
      have hpd : pd.filter (fun p => p.1 != hdl) = [] := by
        apply List.filter_eq_nil_iff.mpr
        intro p hp
        have hm := h.2 p hp
        have hpe : p.1 = hdl := Option.some.inj hm
        simp [hpe]
      simp [hpd]

/-- Claim C8: starting from any state satisfying the single-timer
invariant, `startRefreshTokenTimer` cancels the existing timer first and
re-establishes the invariant with at most one pending timer; when the
decoded expiry yields a positive delay, exactly one timer is armed with
delay `exp*1000 - now - 60*1000` ms (i.e. firing 60 s before expiry) and
no immediate refresh fires; when that delay is not positive, the refresh
fires immediately (`verifyToken()` invoked) and no timer is armed; and
`logout` leaves no timer pending. -/
theorem single_refresh_timer_invariant (nowMs : Int) (s : AuthState) (hinv : timerInv s) :
    timerInv (startRefreshTokenTimer nowMs s).1 ∧
    (startRefreshTokenTimer nowMs s).1.pending.length ≤ 1 ∧
    (∀ (u : ClientUser) (t : Jwt) (td : JwtPayload) (e : Int),
      s.user = some u → u.token = some t → t.raw ≠ "" →
      parseJwt t = some td → td.exp = some e → e ≠ 0 →
      (0 < e * 1000 - nowMs - 60 * 1000 →
        (startRefreshTokenTimer nowMs s).1.pending.map Prod.snd = [e * 1000 - nowMs - 60 * 1000] ∧
        (startRefreshTokenTimer nowMs s).2 = []) ∧
      (e * 1000 - nowMs - 60 * 1000 ≤ 0 →
        (startRefreshTokenTimer nowMs s).1.pending = [] ∧
        (startRefreshTokenTimer nowMs s).2 = [ClientEvent.verifyInvoke])) ∧
    (∀ ok nav : Bool, (logout ok nav s).1.pending = [] ∧
      (logout ok nav s).1.timerHandle = none ∧ (logout ok nav s).1.user = none) := by
  have hstop := timer_stop_eq s hinv
  have hmain : timerInv (startRefreshTokenTimer nowMs s).1 := by
    simp only [startRefreshTokenTimer, hstop]
    repeat' split
    all_goals simp [timerInv]
  refine ⟨hmain, hmain.1, ?_, ?_⟩
  · intro u t td e hu ht hraw hp he hz
    have hraw' : (t.raw == "") = false := by simpa using hraw
    have hz' : (e == 0) = false := by simpa using hz
    constructor
    · intro htm
      refine ⟨?_, ?_⟩ <;>
      · simp only [startRefreshTokenTimer, hstop, hu, ht, hraw', hp, he, hz',
          Bool.false_eq_true, if_false]
        split
        · simp
        · exfalso; omega
    · intro htm
      refine ⟨?_, ?_⟩ <;>
      · simp only [startRefreshTokenTimer, hstop, hu, ht, hraw', hp, he, hz',
          Bool.false_eq_true, if_false]
        split
        · exfalso; omega
        · simp
  · intro ok nav
    refine ⟨?_, ?_, ?_⟩ <;> simp [logout, hstop]

/-- Witness for C8: from a state that already holds a pending timer, the
scheduler cancels it and arms exactly one new timer firing 60 s before
the decoded expiry, and logout leaves no timer pending. -/
theorem single_refresh_timer_invariant_witness :
    (startRefreshTokenTimer 0
      ⟨some ⟨"u1", "Al", "a@b.co", "user", some ⟨"tok", some ⟨some 1000⟩⟩⟩,
       some 3, [(3, 500)], 4⟩).1.pending.map Prod.snd
      = [1000 * 1000 - 0 - 60 * 1000] ∧
    (startRefreshTokenTimer 0
      ⟨some ⟨"u1", "Al", "a@b.co", "user", some ⟨"tok", some ⟨some 1000⟩⟩⟩,
       some 3, [(3, 500)], 4⟩).2 = [] ∧
    (logout true true
      ⟨some ⟨"u1", "Al", "a@b.co", "user", some ⟨"tok", some ⟨some 1000⟩⟩⟩,
       some 3, [(3, 500)], 4⟩).1.pending = [] := by
  have h := single_refresh_timer_invariant 0
    ⟨some ⟨"u1", "Al", "a@b.co", "user", some ⟨"tok", some ⟨some 1000⟩⟩⟩,
     some 3, [(3, 500)], 4⟩
    ⟨by decide, by decide⟩
  have h3 := h.2.2.1 ⟨"u1", "Al", "a@b.co", "user", some ⟨"tok", some ⟨some 1000⟩⟩⟩
    ⟨"tok", some ⟨some 1000⟩⟩ ⟨some 1000⟩ 1000 rfl rfl (by decide) rfl rfl (by decide)
  exact ⟨(h3.1 (by decide)).1, (h3.1 (by decide)).2, (h.2.2.2 true true).1⟩
